import Mathlib

/-!
Shallow embedding of `src/file_writer.go` (package `mlog`): a rotating
log-file sink with an hourly-boundary clock task and a best-effort Slack
alert forwarder.  Go's OS and network calls are modelled by explicit
outcome oracles (booleans passed to each operation); the filesystem is an
association list from paths to entries; goroutine/channel interaction of
the hourly ticker is a small explicit state machine.
-/

/-- Modelled from the spec: the log-level taxonomy (type `Level` and the
constant `LevelError`) is declared outside `src/file_writer.go`; the spec
treats levels as an ordered severity scale, so `Level` is a natural number
and `LevelError` a fixed constant on that scale.  No claim depends on its
concrete value. -/
abbrev Level := Nat

/-- Modelled from the spec: the fixed error-severity constant of the
external level taxonomy. -/
def LevelError : Level := 3

/-- A wall-clock instant, as far as the sink observes it (Go `time.Time`
restricted to the fields the code reads: the date-hour used for file names
and `Hour()` used by the ticker). -/
structure GoTime where
  year : Nat
  month : Nat
  day : Nat
  hour : Nat
  minute : Nat
  second : Nat
deriving DecidableEq

/-- Two-digit zero padding, as produced by Go's `"01"`, `"02"`, `"15"`
format verbs. -/
def pad2 (n : Nat) : String :=
  if n < 10 then "0" ++ toString n else toString n

/-- Four-digit zero padding, as produced by Go's `"2006"` format verb. -/
def pad4 (n : Nat) : String :=
  if n < 10 then "000" ++ toString n
  else if n < 100 then "00" ++ toString n
  else if n < 1000 then "0" ++ toString n
  else toString n

/-- Go `time.Now().Format("2006-01-02_15")`: ISO-like date, underscore,
zero-padded 24h hour. -/
def formatDateHour (t : GoTime) : String :=
  pad4 t.year ++ "-" ++ pad2 t.month ++ "-" ++ pad2 t.day ++ "_" ++ pad2 t.hour

/-- Go `path/filepath.IsAbs` on Unix: the path begins with `/`. -/
def goIsAbs (s : String) : Bool :=
  match s.data with
  | [] => false
  | c :: _ => c = '/'

/-- Go `path/filepath.Abs` assuming the working directory `cwd` is
available (the code discards `Abs`'s error, which only arises when `Getwd`
fails); the lexical `Clean` step is omitted as it does not affect any
claim (it preserves absoluteness and path identity up to normalisation). -/
def goAbs (cwd s : String) : String :=
  if goIsAbs s then s else cwd ++ "/" ++ s

/-- Go `path/filepath.Join` of two components (`Clean` omitted, as in
`goAbs`). -/
def goJoin (a b : String) : String := a ++ "/" ++ b

/-- A filesystem entry the sink can create: the `text.log` symlink (with
its target path) or a regular log file (contents not tracked). -/
inductive FsEntry where
  | symlink (target : String)
  | file
deriving DecidableEq

/-- The filesystem: an association list from absolute path to entry;
earliest binding wins. -/
abbrev Fs := List (String × FsEntry)

/-- Path lookup. -/
def fsLookup : Fs → String → Option FsEntry
  | [], _ => none
  | (q, e) :: fs, p => if p = q then some e else fsLookup fs p

/-- Go `os.Remove`: drop every binding of the path. -/
def fsRemove : Fs → String → Fs
  | [], _ => []
  | (q, e) :: fs, p => if q = p then fsRemove fs p else (q, e) :: fsRemove fs p

/-- Create an entry at a path (callers only use it on absent paths, as
`os.Symlink` and `O_CREATE` do). -/
def fsInsert (fs : Fs) (p : String) (e : FsEntry) : Fs := (p, e) :: fs

/-- The state of the sink's `*os.File` field: nil pointer, an open
descriptor on a path, or a closed descriptor that still remembers its
path (writes on it fail with the closed-file error). -/
inductive Fd where
  | nofd
  | openFd (path : String)
  | closedFd (path : String)
deriving DecidableEq

/-- Go `(*os.File).Close` effect on the descriptor state. -/
def closeFd : Fd → Fd
  | Fd.openFd p => Fd.closedFd p
  | f => f

/-- Errors the embedded operations can return (Go `error` values). -/
inductive GoError where
  | openFailed (path : String)
  | writeClosed (path : String)
  | writeFailed (path : String)
  | invalidFd
  | slackPostFailed
  | fileClosed (path : String)
deriving DecidableEq

/-- The error `fmt.Fprint(fw.fd, msg)` returns, given the descriptor
state and whether the write syscall itself succeeds (`writeOk` oracle). -/
def fdWriteErr (fd : Fd) (writeOk : Bool) : Option GoError :=
  match fd with
  | Fd.nofd => some GoError.invalidFd
  | Fd.closedFd p => some (GoError.writeClosed p)
  | Fd.openFd p => if writeOk then none else some (GoError.writeFailed p)

/-- `SlackMsg` from the source: text payload, sender identity, channel. -/
structure SlackMsg where
  text : String
  username : String
  channel : String
deriving DecidableEq

/-- `FileWriter` from the source, minus the embedded ticker (modelled
separately in `World` so channel interaction is explicit). -/
structure FileWriter where
  level : Level
  filepath : String
  fd : Fd
  url : String
  slack : SlackMsg
deriving DecidableEq

/-- `NewFileWriter(filepath, name, url, channel)`: zero level, nil
descriptor, identity and channel stored in the slack template. -/
def NewFileWriter (fp nm url channel : String) : FileWriter :=
  { level := 0
    filepath := fp
    fd := Fd.nofd
    url := url
    slack := { text := "", username := nm, channel := channel } }

/-- `SetLevel` stores the threshold field. -/
def FileWriter.setLevel (fw : FileWriter) (l : Level) : FileWriter :=
  { fw with level := l }

/-- `GetLevel` reads it back. -/
def FileWriter.getLevel (fw : FileWriter) : Level := fw.level

/-- `Close` releases the active descriptor; closing an already-closed or
nil descriptor returns an error (Go `os.ErrClosed` / `ErrInvalid`). -/
def FileWriter.close (fw : FileWriter) : Option GoError × FileWriter :=
  match fw.fd with
  | Fd.openFd p => (none, { fw with fd := Fd.closedFd p })
  | Fd.closedFd p => (some (GoError.fileClosed p), fw)
  | Fd.nofd => (some GoError.invalidFd, fw)

/-- `postToSlack`: builds the `SlackMsg` from the message and the stored
identity/channel and POSTs it.  `json.Marshal` of a record of plain
strings cannot fail, so serialization is total and the POST is always
attempted; `postOk` is the network outcome.  Returns the POSTed message
and the function's returned error (the `fmt.Errorf` inside is discarded
by the source). -/
def FileWriter.postToSlack (fw : FileWriter) (errMsg : String) (postOk : Bool) :
    SlackMsg × Option GoError :=
  ({ text := errMsg, username := fw.slack.username, channel := fw.slack.channel },
   if postOk then none else some GoError.slackPostFailed)

/-- Outcome of `Init`: `panicked` models `panic(err)` on `os.MkdirAll`
failure; `failed e` the `return err` on `os.OpenFile` failure; `ok` the
`return nil`. -/
inductive InitOutcome where
  | panicked
  | failed (e : GoError)
  | ok
deriving DecidableEq

/-- `Init`: substitutes `./` for an empty base directory, resolves a
relative base directory against `cwd`, creates the directory (`mkdirOk`
oracle; failure panics), computes `text_<date>_<hour>.log` from `now`,
removes the old `text.log` alias if present (its `os.Remove` error is
ignored), creates the symlink to the new name (`os.Symlink`'s error is
ignored: on an existing path it fails and the old entry survives), then
opens the hourly file for append-create (`openOk` oracle; failure is
returned and the old descriptor field is left in place). -/
def FileWriter.init (fw : FileWriter) (now : GoTime) (cwd : String)
    (mkdirOk openOk : Bool) (fs : Fs) : InitOutcome × FileWriter × Fs :=
  let fp0 := if fw.filepath.length = 0 then "./" else fw.filepath
  let fp := if goIsAbs fp0 then fp0 else goAbs cwd fp0
  let fw1 : FileWriter := { fw with filepath := fp }
  if mkdirOk then
    let logFile := "text_" ++ formatDateHour now ++ ".log"
    let linkFile := goJoin fp "text.log"
    let fs1 := if (fsLookup fs linkFile).isSome then fsRemove fs linkFile else fs
    let fs2 := if (fsLookup fs1 linkFile).isSome then fs1
               else fsInsert fs1 linkFile (FsEntry.symlink logFile)
    if openOk then
      let fullPath := goJoin fp logFile
      let fs3 := if (fsLookup fs2 fullPath).isSome then fs2
                 else fsInsert fs2 fullPath FsEntry.file
      (InitOutcome.ok, { fw1 with fd := Fd.openFd fullPath }, fs3)
    else
      (InitOutcome.failed (GoError.openFailed (goJoin fp logFile)), fw1, fs2)
  else
    (InitOutcome.panicked, fw1, fs)

/-- Where the ticker goroutine stands: in its select loop tracking an
hour, blocked on the unbuffered `ht.C <- t` send (carrying the tick it is
trying to deliver and the still-unchanged tracked hour), or returned. -/
inductive TickerStatus where
  | running (hour : Nat)
  | blockedSend (t : GoTime) (hour : Nat)
  | stopped
deriving DecidableEq

/-- `hourlyTicker`: goroutine status plus whether `quitCh` was closed. -/
structure HourlyTicker where
  status : TickerStatus
  quitClosed : Bool
deriving DecidableEq

/-- `newHourlyTicker`: the goroutine starts in its loop tracking
`time.Now().Hour()`; `quitCh` is open. -/
def newHourlyTicker (startHour : Nat) : HourlyTicker :=
  { status := TickerStatus.running startHour, quitClosed := false }

/-- One iteration of the goroutine's select loop when a ticker fire `t`
is available.  A closed `quitCh` is always ready, so it is taken and the
goroutine returns; otherwise the tick is received and, if its hour
differs from the tracked hour, the goroutine starts the unbuffered send
`ht.C <- t` and blocks on it.  A goroutine already blocked on the send is
not at the select: no ticker fire, and no quit signal, reaches it. -/
def HourlyTicker.tick (ht : HourlyTicker) (t : GoTime) : HourlyTicker :=
  match ht.status with
  | TickerStatus.running h =>
    if ht.quitClosed then { ht with status := TickerStatus.stopped }
    else if t.hour = h then ht
    else { ht with status := TickerStatus.blockedSend t h }
  | _ => ht

/-- The non-blocking receive `select { case <-fw.hourlyTicker.C: ...
default: }` inside `checkFile`: on an unbuffered channel it succeeds
exactly when a sender is blocked; the rendezvous releases the goroutine,
which then updates its tracked hour to the delivered tick's hour. -/
def HourlyTicker.tryRecv (ht : HourlyTicker) : Option GoTime × HourlyTicker :=
  match ht.status with
  | TickerStatus.blockedSend t _ =>
    (some t, { ht with status := TickerStatus.running t.hour })
  | _ => (none, ht)

/-- Result of `stop()`: Go's `close` on an already-closed channel
panics. -/
inductive StopResult where
  | ok
  | panicked
deriving DecidableEq

/-- `stop()` is `close(ht.quitCh)`: sets the flag the first time, panics
the second.  The goroutine itself only observes the closure at its next
select iteration (see `HourlyTicker.tick`). -/
def HourlyTicker.stop (ht : HourlyTicker) : StopResult × HourlyTicker :=
  if ht.quitClosed then (StopResult.panicked, ht)
  else (StopResult.ok, { ht with quitClosed := true })

/-- The whole system a `Write` call touches: the writer, its ticker, and
the filesystem. -/
structure World where
  fw : FileWriter
  ht : HourlyTicker
  fs : Fs
deriving DecidableEq

/-- Result of `checkFile`: the updated system, whether a rotation was
performed, and whether the re-`Init` inside it panicked. -/
structure CheckResult where
  world : World
  rotated : Bool
  panicked : Bool
deriving DecidableEq

/-- `checkFile`: non-blocking poll of the ticker channel; on a pending
boundary event it syncs and closes the active descriptor and calls
`Init`, discarding `Init`'s returned error (only a panic escapes). -/
def World.checkFile (w : World) (now : GoTime) (cwd : String)
    (mkdirOk openOk : Bool) : CheckResult :=
  match w.ht.tryRecv with
  | (some _, ht1) =>
    let fwc : FileWriter := { w.fw with fd := closeFd w.fw.fd }
    match fwc.init now cwd mkdirOk openOk w.fs with
    | (InitOutcome.panicked, fw2, fs2) =>
      { world := { fw := fw2, ht := ht1, fs := fs2 }, rotated := true, panicked := true }
    | (_, fw2, fs2) =>
      { world := { fw := fw2, ht := ht1, fs := fs2 }, rotated := true, panicked := false }
  | (none, ht1) =>
    { world := { fw := w.fw, ht := ht1, fs := w.fs }, rotated := false, panicked := false }

/-- How a call that may panic ends: Go panic propagation, or a normal
return carrying the `error` result (`none` = nil). -/
inductive GoResult where
  | panicked
  | returned (e : Option GoError)
deriving DecidableEq

/-- Oracles for the OS and network calls one `Write` makes: the current
time observed by a rotation's `Init`, the working directory, the mkdir
and open outcomes, the Slack POST outcome, and the byte-write outcome. -/
structure WriteEnv where
  now : GoTime
  cwd : String
  mkdirOk : Bool
  openOk : Bool
  postOk : Bool
  writeOk : Bool
deriving DecidableEq

/-- Observable effects of one `Write` call: the alert POSTs attempted (in
order), whether rotation ran, and the byte write performed (target file
path and message), if any. -/
structure WriteRecord where
  alerts : List SlackMsg
  rotated : Bool
  wrote : Option (String × String)
deriving DecidableEq

/-- `Write(msg, level)`: if `level >= LevelError`, calls `postToSlack`
(whose returned error the source discards — the `fmt.Errorf` result is
unused); then `checkFile`; then `fmt.Fprint(fw.fd, msg)`, returning that
write's error. -/
def World.write (w : World) (msg : String) (lvl : Level) (env : WriteEnv) :
    GoResult × World × WriteRecord :=
  let alerts : List SlackMsg :=
    if LevelError ≤ lvl then [(w.fw.postToSlack msg env.postOk).1] else []
  let c := w.checkFile env.now env.cwd env.mkdirOk env.openOk
  let ret : GoResult :=
    if c.panicked then GoResult.panicked
    else GoResult.returned (fdWriteErr c.world.fw.fd env.writeOk)
  let dest : Option (String × String) :=
    if c.panicked then none
    else
      match c.world.fw.fd with
      | Fd.openFd p => if env.writeOk then some (p, msg) else none
      | _ => none
  (ret, c.world, { alerts := alerts, rotated := c.rotated, wrote := dest })

/-! ## Shared concrete scenario states -/

/-- The writer produced by a successful Init at 2026-10-11 14:00. -/
def fwAt14 : FileWriter :=
  ((NewFileWriter "/var/log" "bot" "http://hook" "#alerts").init
    ⟨2026, 10, 11, 14, 0, 0⟩ "/" true true []).2.1

/-- The filesystem produced by that Init. -/
def fsAt14 : Fs :=
  ((NewFileWriter "/var/log" "bot" "http://hook" "#alerts").init
    ⟨2026, 10, 11, 14, 0, 0⟩ "/" true true []).2.2

/-- An all-calls-succeed environment observing time t. -/
def envOkAt (t : GoTime) : WriteEnv :=
  { now := t, cwd := "/", mkdirOk := true, openOk := true, postOk := true, writeOk := true }

/-- The sink of fwAt14 with the clock goroutine blocked delivering the
15:00 boundary event. -/
def worldPending : World :=
  { fw := fwAt14
    ht := { status := TickerStatus.blockedSend ⟨2026, 10, 11, 15, 0, 0⟩ 14, quitClosed := false }
    fs := fsAt14 }

/-- The same sink with no boundary event pending. -/
def worldQuiet : World :=
  { fw := fwAt14
    ht := { status := TickerStatus.running 14, quitClosed := false }
    fs := fsAt14 }

/-! ## C1 -/

/-- C1 counterexample: with the stored threshold set to LevelError + 1, a
Write at severity LevelError is strictly below the stored threshold, yet
the call still performs an alert attempt: the source gates alerting on
the fixed LevelError constant, never on the SetLevel-stored field. -/
theorem c1_counterexample :
    LevelError <
      ((NewFileWriter "/var/log" "bot" "http://hook" "#alerts").setLevel (LevelError + 1)).level ∧
    (World.write
      { fw := (NewFileWriter "/var/log" "bot" "http://hook" "#alerts").setLevel (LevelError + 1)
        ht := { status := TickerStatus.running 14, quitClosed := false }
        fs := [] }
      "boom" LevelError (envOkAt ⟨2026, 10, 11, 14, 0, 0⟩)).2.2.alerts ≠ [] := by
  decide

/-- C1 (amended): for every message and severity, a Write performs
exactly one alert attempt — whose text, username and channel equal the
message and the configured identity/channel — when the severity is at or
above the fixed LevelError constant, and no alert attempt below it; the
SetLevel-stored threshold plays no role in alert routing. -/
theorem c1_alert_gated_by_levelError (w : World) (msg : String) (lvl : Level)
    (env : WriteEnv) :
    (w.write msg lvl env).2.2.alerts =
      if LevelError ≤ lvl then
        [{ text := msg, username := w.fw.slack.username, channel := w.fw.slack.channel }]
      else [] := by
  rfl

/-! ## C2 -/

/-- A tick delivered while the goroutine is blocked on the event send
changes nothing: the goroutine is not at its select. -/
theorem tick_of_blockedSend (ht : HourlyTicker) (t th : GoTime) (h0 : Nat)
    (h : ht.status = TickerStatus.blockedSend t h0) :
    ht.tick th = ht := by
  obtain ⟨st, q⟩ := ht
  cases st with
  | running h1 => simp at h
  | blockedSend t1 h1 => rfl
  | stopped => simp at h

/-- No sequence of further ticker fires moves a goroutine blocked on the
event send. -/
theorem foldl_tick_blockedSend (t : GoTime) (h0 : Nat) :
    ∀ (ts : List GoTime) (ht : HourlyTicker),
      ht.status = TickerStatus.blockedSend t h0 →
      ts.foldl HourlyTicker.tick ht = ht
  | [], _, _ => rfl
  | th :: ts, ht, h => by
    rw [List.foldl_cons, tick_of_blockedSend ht t th h0 h]
    exact foldl_tick_blockedSend t h0 ts ht h

/-- C2: the boundary event is sent on an unbuffered channel with a plain
blocking send: with no consumer, the first hour transition leaves the
goroutine blocked on the send, a subsequent stop() returns but the
goroutine never observes the quit signal, and no sequence of further
ticker fires unblocks it — the task leaks instead of being coalesced,
skipped, or cancellable. -/
theorem c2_blocked_send_not_cancellable :
    ((newHourlyTicker 14).tick ⟨2026, 10, 11, 15, 0, 0⟩).status
      = TickerStatus.blockedSend ⟨2026, 10, 11, 15, 0, 0⟩ 14 ∧
    (((newHourlyTicker 14).tick ⟨2026, 10, 11, 15, 0, 0⟩).stop).1 = StopResult.ok ∧
    ∀ ts : List GoTime,
      (ts.foldl HourlyTicker.tick
          ((((newHourlyTicker 14).tick ⟨2026, 10, 11, 15, 0, 0⟩).stop).2)).status
        = TickerStatus.blockedSend ⟨2026, 10, 11, 15, 0, 0⟩ 14 := by
  refine ⟨by decide, by decide, fun ts => ?_⟩
  rw [foldl_tick_blockedSend ⟨2026, 10, 11, 15, 0, 0⟩ 14 ts _ (by decide)]
  decide

/-! ## C6 -/

/-- C6: when the target directory cannot be created, Init does not return
an error value: it panics (Go panic(err) on the os.MkdirAll failure),
terminating the process instead of surfacing a structured error to the
caller. -/
theorem c6_mkdir_failure_panics (fw : FileWriter) (now : GoTime) (cwd : String)
    (openOk : Bool) (fs : Fs) :
    (fw.init now cwd false openOk fs).1 = InitOutcome.panicked := by
  rfl

/-! ## C9 -/

/-- C9: stop() is not idempotent: the first stop() closes the quit
channel and returns normally, but a second stop() on the same instance
panics (Go close of an already-closed channel). -/
theorem c9_double_stop_panics :
    ((newHourlyTicker 14).stop).1 = StopResult.ok ∧
    ((((newHourlyTicker 14).stop).2).stop).1 = StopResult.panicked := by
  decide

/-! ## C3 -/

/-- The sink of fwAt14 after Close, with the 15:00 boundary event still
pending in the clock. -/
def worldClosedPending : World :=
  { fw := (fwAt14.close).2
    ht := { status := TickerStatus.blockedSend ⟨2026, 10, 11, 15, 0, 0⟩ 14, quitClosed := false }
    fs := fsAt14 }

/-- C3: Write contains no closed-state check: on a sink whose descriptor
was released by Close, a Write that finds a pending boundary event
silently rotates, reopens a fresh descriptor, performs the byte write and
returns nil — no defined "closed" error is ever produced by an explicit
check. -/
theorem c3_write_after_close_not_rejected :
    (fwAt14.close).2.fd = Fd.closedFd "/var/log/text_2026-10-11_14.log" ∧
    (worldClosedPending.write "after-close" 0 (envOkAt ⟨2026, 10, 11, 15, 0, 1⟩)).1
      = GoResult.returned none ∧
    (worldClosedPending.write "after-close" 0 (envOkAt ⟨2026, 10, 11, 15, 0, 1⟩)).2.2.wrote
      = some ("/var/log/text_2026-10-11_15.log", "after-close") := by
  decide

/-! ## C5 -/

/-- C5: when rotation's re-Init fails, checkFile has already closed the
old descriptor and discards Init's error: the triggering Write does
rotate, returns the write-on-closed-descriptor error of the subsequent
byte write — not the open failure that broke the rotation — writes no
bytes, and leaves the sink holding the closed old descriptor rather than
a usable one. -/
theorem c5_failed_rotation_leaves_closed_fd :
    (worldPending.write "m" 0
        { now := ⟨2026, 10, 11, 15, 0, 1⟩, cwd := "/", mkdirOk := true, openOk := false,
          postOk := true, writeOk := true }).2.2.rotated = true ∧
    (worldPending.write "m" 0
        { now := ⟨2026, 10, 11, 15, 0, 1⟩, cwd := "/", mkdirOk := true, openOk := false,
          postOk := true, writeOk := true }).1
      = GoResult.returned (some (GoError.writeClosed "/var/log/text_2026-10-11_14.log")) ∧
    (worldPending.write "m" 0
        { now := ⟨2026, 10, 11, 15, 0, 1⟩, cwd := "/", mkdirOk := true, openOk := false,
          postOk := true, writeOk := true }).1
      ≠ GoResult.returned (some (GoError.openFailed "/var/log/text_2026-10-11_15.log")) ∧
    (worldPending.write "m" 0
        { now := ⟨2026, 10, 11, 15, 0, 1⟩, cwd := "/", mkdirOk := true, openOk := false,
          postOk := true, writeOk := true }).2.1.fw.fd
      = Fd.closedFd "/var/log/text_2026-10-11_14.log" ∧
    (worldPending.write "m" 0
        { now := ⟨2026, 10, 11, 15, 0, 1⟩, cwd := "/", mkdirOk := true, openOk := false,
          postOk := true, writeOk := true }).2.2.wrote = none := by
  decide

/-! ## C7 -/

/-- The sink initialised at 14:00 whose clock has observed the 14 to 15
transition while idle (goroutine blocked on the send). -/
def c7w1 : World :=
  { fw := fwAt14
    ht := (newHourlyTicker 14).tick ⟨2026, 10, 11, 15, 0, 0⟩
    fs := fsAt14 }

/-- First write, at 16:30: consumes the queued 15:00 event and rotates. -/
def c7r1 : GoResult × World × WriteRecord :=
  c7w1.write "first" 0 (envOkAt ⟨2026, 10, 11, 16, 30, 0⟩)

/-- Between the two writes the clock ticks once, at 16:30:01, sees hour
16 differ from its tracked hour 15, and blocks sending a new event. -/
def c7w2 : World :=
  { c7r1.2.1 with ht := c7r1.2.1.ht.tick ⟨2026, 10, 11, 16, 30, 1⟩ }

/-- Second write, at 16:40, in the same hour as the first. -/
def c7r2 : GoResult × World × WriteRecord :=
  c7w2.write "second" 0 (envOkAt ⟨2026, 10, 11, 16, 40, 0⟩)

/-- C7 counterexample: two consecutive Write calls both timestamped in
hour 16 (16:30:00 and 16:40:00) after an idle gap spanning the 14 to 15
and 15 to 16 transitions; each queued transition is consumed one per
Write, so the second call — same wall-clock hour as its predecessor —
still triggers rotation. -/
theorem c7_counterexample :
    (⟨2026, 10, 11, 16, 30, 0⟩ : GoTime).hour = (⟨2026, 10, 11, 16, 40, 0⟩ : GoTime).hour ∧
    c7r1.2.2.rotated = true ∧
    c7r2.2.2.rotated = true := by
  decide

/-- C7 (amended): rotation is lazy: a Write call rotates exactly when
the clock goroutine is blocked delivering a boundary event at the moment
of the call, and a Write finding no pending event leaves the whole sink
state unchanged (same descriptor, file, clock and filesystem).  A second
same-hour Write therefore never rotates when at most one hour transition
was signalled since the previous rotation, but after an idle gap spanning
several transitions it can (each queued transition is consumed one per
Write). -/
theorem c7_rotation_lazy (w : World) (msg : String) (lvl : Level) (env : WriteEnv) :
    (w.write msg lvl env).2.2.rotated = ((w.ht.tryRecv).1).isSome ∧
    ((w.ht.tryRecv).1 = none → (w.write msg lvl env).2.1 = w) := by
  obtain ⟨fw, ⟨st, q⟩, fs⟩ := w
  cases st with
  | running h1 => exact ⟨rfl, fun _ => rfl⟩
  | blockedSend t1 h1 =>
    refine ⟨?_, fun h => by simp [HourlyTicker.tryRecv] at h⟩
    show (World.write _ msg lvl env).2.2.rotated = true
    simp only [World.write, World.checkFile, HourlyTicker.tryRecv]
    cases hinit : (FileWriter.init { fw with fd := closeFd fw.fd } env.now env.cwd
        env.mkdirOk env.openOk fs) with
    | mk outcome rest =>
      cases outcome <;> simp [hinit]
  | stopped => exact ⟨rfl, fun _ => rfl⟩

/-- C7 witness: on the quiet sink (no pending event) a Write does not
rotate and changes nothing. -/
theorem c7_witness :
    (worldQuiet.write "w" 0 (envOkAt ⟨2026, 10, 11, 14, 5, 0⟩)).2.2.rotated
        = ((worldQuiet.ht.tryRecv).1).isSome ∧
    ((worldQuiet.ht.tryRecv).1 = none →
      (worldQuiet.write "w" 0 (envOkAt ⟨2026, 10, 11, 14, 5, 0⟩)).2.1 = worldQuiet) :=
  c7_rotation_lazy worldQuiet "w" 0 (envOkAt ⟨2026, 10, 11, 14, 5, 0⟩)

/-! ## C4 -/

/-- C4: a failure of the alert-forwarding step is never propagated: the
entire result of Write — return value, post-state and byte write — is
independent of the Slack POST outcome, and (absent a rotation panic)
Write's return value is exactly the error of the byte write to the
post-checkFile descriptor. -/
theorem c4_slack_failure_not_propagated (w : World) (msg : String) (lvl : Level)
    (now : GoTime) (cwd : String) (mk op wr p1 p2 : Bool)
    (h : (w.checkFile now cwd mk op).panicked = false) :
    w.write msg lvl ⟨now, cwd, mk, op, p1, wr⟩ = w.write msg lvl ⟨now, cwd, mk, op, p2, wr⟩ ∧
    (w.write msg lvl ⟨now, cwd, mk, op, p1, wr⟩).1
      = GoResult.returned (fdWriteErr ((w.checkFile now cwd mk op).world.fw.fd) wr) := by
  constructor
  · rfl
  · show (if (w.checkFile now cwd mk op).panicked then GoResult.panicked
        else GoResult.returned (fdWriteErr ((w.checkFile now cwd mk op).world.fw.fd) wr)) = _
    rw [h]
    simp

/-- C4 witness: the quiet sink at severity LevelError, with the POST
succeeding versus failing. -/
theorem c4_witness :
    (worldQuiet.checkFile ⟨2026, 10, 11, 14, 5, 0⟩ "/" true true).panicked = false ∧
    (worldQuiet.write "disk full" LevelError
          ⟨⟨2026, 10, 11, 14, 5, 0⟩, "/", true, true, true, true⟩
        = worldQuiet.write "disk full" LevelError
          ⟨⟨2026, 10, 11, 14, 5, 0⟩, "/", true, true, false, true⟩ ∧
      (worldQuiet.write "disk full" LevelError
          ⟨⟨2026, 10, 11, 14, 5, 0⟩, "/", true, true, true, true⟩).1
        = GoResult.returned
            (fdWriteErr ((worldQuiet.checkFile ⟨2026, 10, 11, 14, 5, 0⟩ "/" true true).world.fw.fd)
              true)) :=
  ⟨by decide, c4_slack_failure_not_propagated worldQuiet "disk full" LevelError
    ⟨2026, 10, 11, 14, 5, 0⟩ "/" true true true true false (by decide)⟩

/-! ## C8 -/

/-- Looking up the freshly inserted path. -/
theorem fsLookup_insert_self (fs : Fs) (p : String) (e : FsEntry) :
    fsLookup (fsInsert fs p e) p = some e := by
  simp [fsInsert, fsLookup]

/-- Inserting at a different path does not disturb a lookup. -/
theorem fsLookup_insert_ne (fs : Fs) (p q : String) (e : FsEntry) (h : p ≠ q) :
    fsLookup (fsInsert fs q e) p = fsLookup fs p := by
  simp [fsInsert, fsLookup, h]

/-- After removal the path is gone. -/
theorem fsLookup_remove_self (fs : Fs) (p : String) :
    fsLookup (fsRemove fs p) p = none := by
  induction fs with
  | nil => rfl
  | cons kv fs ih =>
    obtain ⟨q, e⟩ := kv
    by_cases h : q = p
    · simpa [fsRemove, h] using ih
    · simpa [fsRemove, fsLookup, h, Ne.symm h] using ih

/-- The alias path and the hourly-file path under the same directory
always differ (their last components have different lengths). -/
theorem textlog_ne_hourly (fp s : String) :
    goJoin fp "text.log" ≠ goJoin fp ("text_" ++ s ++ ".log") := by
  intro h
  have hl := congrArg String.length h
  have e1 : ("text.log" : String).length = 8 := rfl
  have e2 : ("text_" : String).length = 5 := rfl
  have e3 : (".log" : String).length = 4 := rfl
  simp [goJoin, String.length_append, e1, e2, e3] at hl
  omega

/-- Core of the alias argument, over a filesystem in which the alias
path is already absent: creating the symlink then (possibly) the hourly
file leaves the alias resolving to the new symlink. -/
theorem lookup_relink_core (fs1 : Fs) (lk lg fp2 : String) (hne : lk ≠ fp2)
    (h1 : fsLookup fs1 lk = none) :
    fsLookup
      (if (fsLookup (if (fsLookup fs1 lk).isSome then fs1
                     else fsInsert fs1 lk (FsEntry.symlink lg)) fp2).isSome
       then (if (fsLookup fs1 lk).isSome then fs1 else fsInsert fs1 lk (FsEntry.symlink lg))
       else fsInsert (if (fsLookup fs1 lk).isSome then fs1
                      else fsInsert fs1 lk (FsEntry.symlink lg)) fp2 FsEntry.file) lk
      = some (FsEntry.symlink lg) := by
  rw [h1]
  simp only [Option.isSome_none, Bool.false_eq_true, if_false]
  by_cases h2 : (fsLookup (fsInsert fs1 lk (FsEntry.symlink lg)) fp2).isSome = true
  · rw [if_pos h2, fsLookup_insert_self]
  · rw [if_neg h2, fsLookup_insert_ne _ _ _ _ hne, fsLookup_insert_self]

/-- The remove-then-create sequence of Init, exactly as its body performs
it, leaves the alias resolving to the new hourly file name, whatever the
prior filesystem held. -/
theorem lookup_after_relink (fs : Fs) (lk lg fp2 : String) (hne : lk ≠ fp2) :
    (let fs1 := if (fsLookup fs lk).isSome then fsRemove fs lk else fs
     let fs2 := if (fsLookup fs1 lk).isSome then fs1 else fsInsert fs1 lk (FsEntry.symlink lg)
     let fs3 := if (fsLookup fs2 fp2).isSome then fs2 else fsInsert fs2 fp2 FsEntry.file
     fsLookup fs3 lk) = some (FsEntry.symlink lg) := by
  have h1 : fsLookup (if (fsLookup fs lk).isSome then fsRemove fs lk else fs) lk = none := by
    by_cases h : (fsLookup fs lk).isSome = true
    · rw [if_pos h]; exact fsLookup_remove_self fs lk
    · rw [if_neg h]
      cases hopt : fsLookup fs lk with
      | none => rfl
      | some e => exact absurd (by rw [hopt]; rfl) h
  exact lookup_relink_core _ lk lg fp2 hne h1

/-- C8: every successful Init opens exactly the hourly file
text_<date>_<hour>.log (formatDateHour: ISO-like date and zero-padded
hour from the current time) under the resolved base directory, and the
text.log alias in that directory is recreated — remove then create — to
reference that newly opened file name, whatever the filesystem held
before. -/
theorem c8_init_name_and_alias (fw : FileWriter) (now : GoTime) (cwd : String) (fs : Fs) :
    (fw.init now cwd true true fs).1 = InitOutcome.ok ∧
    (fw.init now cwd true true fs).2.1.fd
      = Fd.openFd (goJoin ((fw.init now cwd true true fs).2.1.filepath)
          ("text_" ++ formatDateHour now ++ ".log")) ∧
    fsLookup ((fw.init now cwd true true fs).2.2)
        (goJoin ((fw.init now cwd true true fs).2.1.filepath) "text.log")
      = some (FsEntry.symlink ("text_" ++ formatDateHour now ++ ".log")) := by
  refine ⟨rfl, rfl, ?_⟩
  exact lookup_after_relink fs
    (goJoin ((fw.init now cwd true true fs).2.1.filepath) "text.log")
    ("text_" ++ formatDateHour now ++ ".log")
    (goJoin ((fw.init now cwd true true fs).2.1.filepath)
      ("text_" ++ formatDateHour now ++ ".log"))
    (textlog_ne_hourly _ _)

/-! ## C10 -/

/-- The filepath field after Init, in every outcome: the empty path is
replaced by "./" and a relative path is resolved, before any filesystem
call. -/
theorem init_filepath_eq (fw : FileWriter) (now : GoTime) (cwd : String)
    (mk op : Bool) (fs : Fs) :
    (fw.init now cwd mk op fs).2.1.filepath
      = if goIsAbs (if fw.filepath.length = 0 then "./" else fw.filepath)
        then (if fw.filepath.length = 0 then "./" else fw.filepath)
        else goAbs cwd (if fw.filepath.length = 0 then "./" else fw.filepath) := by
  cases mk <;> cases op <;> rfl

/-- Prepending an absolute path keeps the result absolute. -/
theorem goIsAbs_append (a b : String) (h : goIsAbs a = true) :
    goIsAbs (a ++ b) = true := by
  obtain ⟨da⟩ := a
  obtain ⟨db⟩ := b
  cases da with
  | nil => exact Bool.noConfusion h
  | cons c cs => exact h

/-- C10: after any completed Init with an absolute working directory,
the stored filepath equals the resolution (empty replaced by "./", then
made absolute against the working directory) and is itself absolute. -/
theorem c10_filepath_resolved_absolute (fw : FileWriter) (now : GoTime) (cwd : String)
    (mk op : Bool) (fs : Fs) (h : goIsAbs cwd = true) :
    (fw.init now cwd mk op fs).2.1.filepath
      = goAbs cwd (if fw.filepath.length = 0 then "./" else fw.filepath) ∧
    goIsAbs ((fw.init now cwd mk op fs).2.1.filepath) = true := by
  have key := init_filepath_eq fw now cwd mk op fs
  by_cases habs : goIsAbs (if fw.filepath.length = 0 then "./" else fw.filepath) = true
  · constructor
    · rw [key, if_pos habs]
      simp only [goAbs, if_pos habs]
    · rw [key, if_pos habs]
      exact habs
  · constructor
    · rw [key, if_neg habs]
    · rw [key, if_neg habs]
      simp only [goAbs, if_neg habs]
      exact goIsAbs_append (cwd ++ "/") _ (goIsAbs_append cwd "/" h)

/-- C10 witness: a relative base directory resolved against /home. -/
theorem c10_witness :
    goIsAbs "/home" = true ∧
    (((NewFileWriter "rel/dir" "bot" "http://hook" "#alerts").init
          ⟨2026, 10, 11, 14, 0, 0⟩ "/home" true true []).2.1.filepath
        = goAbs "/home"
            (if (NewFileWriter "rel/dir" "bot" "http://hook" "#alerts").filepath.length = 0
             then "./" else (NewFileWriter "rel/dir" "bot" "http://hook" "#alerts").filepath) ∧
      goIsAbs (((NewFileWriter "rel/dir" "bot" "http://hook" "#alerts").init
          ⟨2026, 10, 11, 14, 0, 0⟩ "/home" true true []).2.1.filepath) = true) :=
  ⟨by decide, c10_filepath_resolved_absolute
    (NewFileWriter "rel/dir" "bot" "http://hook" "#alerts")
    ⟨2026, 10, 11, 14, 0, 0⟩ "/home" true true [] (by decide)⟩
